import Mathlib

/-!
Formal model of the frummy-supabase frontend template: the session provider,
the protected-route guard (`Dashboard` in `src/routes/dashboard.tsx`), the
navigation bar (`Nav`), and the top-level `ErrorBoundary`, together with
proofs of the contracts stated in the specification.

The guard, navigation bar and error boundary are translated directly from the
TypeScript sources.  The session provider (`src/lib/auth-context.tsx`) is not
among the provided sources — only its callers are — so its transition system is
modelled from the specification's contract (section 4.1) and marked as such.
-/

namespace Frummy

/-- An authenticated user as exposed by the identity service: an opaque id and
an email string (the only fields the core depends on). -/
structure User where
  id : String
  email : String
deriving DecidableEq

/-- The possible rendered outputs of the `Dashboard` route component
(`src/routes/dashboard.tsx`): the full-screen loading placeholder, the `null`
render, or the protected dashboard content (which shows the skeleton demo
section iff the `showSkeletons` local state is set). -/
inductive View where
  | loadingView (text : String)
  | nothing
  | protectedContent (u : User) (showSkeletons : Bool)
deriving DecidableEq

/-- The result of one render of `Dashboard`: what is rendered, and the
navigation target assigned to `window.location.href` during the render, if
any. -/
structure RenderResult where
  view : View
  redirect : Option String
deriving DecidableEq

/-- Translation of the `Dashboard` component body
(`src/routes/dashboard.tsx`, lines 14–25):
`if (loading) return <Loading text="Loading dashboard..." fullScreen />;`
`if (!user) { window.location.href = '/auth/login'; return null }`
otherwise render the protected content.  `user` and `loading` are the pair read
from `useAuth()`; `showSkeletons` is the component's own `useState` cell. -/
def Dashboard (user : Option User) (loading : Bool) (showSkeletons : Bool) :
    RenderResult :=
  if loading then
    { view := View.loadingView "Loading dashboard...", redirect := none }
  else
    match user with
    | none => { view := View.nothing, redirect := some "/auth/login" }
    | some u => { view := View.protectedContent u showSkeletons, redirect := none }

/-- C1: the route guard, as a function of the provider's (session, loading)
pair, satisfies the three-case contract: while loading it renders only the
loading placeholder and issues no redirect; once resolved without a session it
assigns `/auth/login` to the location and renders nothing; once resolved with a
session it renders the protected content with no redirect. -/
theorem dashboard_guard_contract (user : Option User) (loading sk : Bool) :
    (loading = true →
      Dashboard user loading sk =
        { view := View.loadingView "Loading dashboard...", redirect := none }) ∧
    (loading = false → user = none →
      Dashboard user loading sk =
        { view := View.nothing, redirect := some "/auth/login" }) ∧
    (∀ u, loading = false → user = some u →
      Dashboard user loading sk =
        { view := View.protectedContent u sk, redirect := none }) := by
  refine ⟨fun hl => ?_, fun hl hu => ?_, fun u hl hu => ?_⟩ <;>
    subst hl <;> try subst hu
  · simp [Dashboard]
  · simp [Dashboard]
  · simp [Dashboard]

/-- Witness for C1: at the concrete input (no session, resolved, skeletons
hidden) the guard redirects to `/auth/login` and renders nothing. -/
theorem dashboard_guard_contract_witness :
    Dashboard none false false =
      { view := View.nothing, redirect := some "/auth/login" } :=
  (dashboard_guard_contract none false false).2.1 rfl rfl

/-- Modelled from the spec: `src/lib/auth-context.tsx` (the `AuthProvider`)
is not among the provided sources.  The events the provider reacts to, per the
specification's contract (section 4.1): the initial `getSession` request
resolving with a session or without one, the initial request failing, and a
push from the identity service's change listener carrying the new session
(sign-in carries `some` user, sign-out carries `none`). -/
inductive ProviderEvent where
  | initialResolved (s : Option User)
  | initialFailed
  | authChange (s : Option User)
deriving DecidableEq

/-- The provider's exposed state: the cached session (absence of a user means
no session) and the loading flag (`true` means the tri-state value `unknown`;
`false` means resolved, with `session` distinguishing resolved-with-session
from resolved-without-session). -/
structure ProviderState where
  session : Option User
  loading : Bool
deriving DecidableEq

/-- Modelled from the spec: the provider's state at mount, before the initial
session request resolves — no cached session, loading flag `unknown`. -/
def initialProviderState : ProviderState := { session := none, loading := true }

/-- Modelled from the spec: the provider's reaction to one event.  The initial
request resolving installs its session and resolves the loading flag; the
initial request failing resolves to "no session" (fail-open-to-logged-out);
every change-listener push installs the pushed session and resolves the
loading flag. -/
def providerStep (_st : ProviderState) (e : ProviderEvent) : ProviderState :=
  match e with
  | ProviderEvent.initialResolved s => { session := s, loading := false }
  | ProviderEvent.initialFailed => { session := none, loading := false }
  | ProviderEvent.authChange s => { session := s, loading := false }

/-- The provider's state after consuming a sequence of events from mount. -/
def providerRun (es : List ProviderEvent) : ProviderState :=
  es.foldl providerStep initialProviderState

/-- The sequence of provider states along an execution from mount: the mount
state followed by the state after each consumed event. -/
def providerStates (es : List ProviderEvent) : List ProviderState :=
  (es.scanl providerStep initialProviderState)

/-- C2: for every start state and every nonempty sequence of change-listener
pushes (sign-ins carry `some` user, sign-outs carry `none`), once all events
are consumed the provider's exposed session equals the session carried by the
most recently delivered event. -/
theorem session_matches_last_event (st : ProviderState)
    (es : List (Option User)) (h : es ≠ []) :
    ((es.map ProviderEvent.authChange).foldl providerStep st).session =
      es.getLast h := by
  induction es generalizing st with
  | nil => exact absurd rfl h
  | cons x xs ih =>
    cases xs with
    | nil => rfl
    | cons y ys =>
      rw [List.getLast_cons (by simp)]
      exact ih (providerStep st (ProviderEvent.authChange x)) (by simp)

/-- Witness for C2: after the pushes sign-in (user u1), sign-out, sign-in
(user u2), the exposed session is `some u2`. -/
theorem session_matches_last_event_witness :
    (([some { id := "1", email := "a@b.c" }, none,
        some { id := "2", email := "d@e.f" }].map
          ProviderEvent.authChange).foldl providerStep
            initialProviderState).session =
      ([some { id := "1", email := "a@b.c" }, none,
        some ({ id := "2", email := "d@e.f" } : User)].getLast (by simp)) :=
  session_matches_last_event initialProviderState _ (by simp)

/-- Every provider step leaves the loading flag resolved, whatever the event. -/
theorem providerStep_loading (st : ProviderState) (e : ProviderEvent) :
    (providerStep st e).loading = false := by
  cases e <;> rfl

/-- Helper: in a trace started from any state, every state reached after at
least one step has the loading flag resolved. -/
theorem scanl_tail_loading (es : List ProviderEvent) (st : ProviderState)
    (i : Nat) (h : i + 1 < (es.scanl providerStep st).length) :
    ((es.scanl providerStep st).get ⟨i + 1, h⟩).loading = false := by
  induction es generalizing st i with
  | nil => exact absurd h (by simp [List.scanl_nil])
  | cons e es ih =>
    cases i with
    | zero =>
      cases es with
      | nil => exact providerStep_loading st e
      | cons f fs => exact providerStep_loading st e
    | succ j =>
      have hlen : j + 1 < (es.scanl providerStep (providerStep st e)).length := by
        simp only [List.length_scanl, List.length_cons] at h ⊢
        omega
      exact ih (providerStep st e) j hlen

/-- C3: along every execution from mount, the loading flag is `unknown` at the
mount state and at no later state: it transitions from unknown to resolved
exactly once (at the first consumed event) and never reverts to unknown. -/
theorem loading_resolves_exactly_once (es : List ProviderEvent) (i : Nat)
    (h : i < (providerStates es).length) :
    ((providerStates es).get ⟨i, h⟩).loading = true ↔ i = 0 := by
  constructor
  · intro hl
    by_contra hi
    cases i with
    | zero => exact hi rfl
    | succ j =>
      have hl' : ((es.scanl providerStep initialProviderState).get
          ⟨j + 1, h⟩).loading = true := hl
      exact Bool.false_ne_true
        ((scanl_tail_loading es initialProviderState j h).symm.trans hl')
  · intro hi
    subst hi
    cases es <;> rfl

/-- Witness for C3: in the two-event execution where the initial fetch fails
and then a sign-out push arrives, the state after the first event has the
loading flag resolved (index 1 is not 0). -/
theorem loading_resolves_exactly_once_witness :
    ((providerStates [ProviderEvent.initialFailed,
        ProviderEvent.authChange none]).get ⟨1, by decide⟩).loading = true ↔
      (1 : Nat) = 0 :=
  loading_resolves_exactly_once
    [ProviderEvent.initialFailed, ProviderEvent.authChange none] 1 (by decide)

/-- C4: if the initial session request fails, the provider settles to
(session absent, loading resolved) rather than staying unknown, and the guard
reading that state redirects to `/auth/login` while rendering nothing. -/
theorem initial_fetch_failure_settles (sk : Bool) :
    providerStep initialProviderState ProviderEvent.initialFailed =
      { session := none, loading := false } ∧
    Dashboard
        (providerStep initialProviderState ProviderEvent.initialFailed).session
        (providerStep initialProviderState ProviderEvent.initialFailed).loading
        sk =
      { view := View.nothing, redirect := some "/auth/login" } := by
  exact ⟨rfl, rfl⟩

/-- The provider state in which the guard is redirect-pending: loading
resolved, no session. -/
def redirectPendingState : ProviderState := { session := none, loading := false }

/-- React's state bail-out semantics for the auth context: a consumer such as
`Dashboard` re-renders only when the provider's exposed state value changes;
deliveries that leave the state unchanged trigger no re-render.
`rendersFrom prev sts` is the sequence of re-renders caused by the delivered
state sequence `sts` when the most recently rendered state is `prev`. -/
def rendersFrom (prev : ProviderState) :
    List ProviderState → List ProviderState
  | [] => []
  | st :: rest =>
      if st = prev then rendersFrom prev rest else st :: rendersFrom st rest

/-- The renders of a mounted guarded view over an execution: the first
delivered state always renders; afterwards only state changes re-render. -/
def renderStates : List ProviderState → List ProviderState
  | [] => []
  | st :: rest => st :: rendersFrom st rest

/-- Whether one render of the guard assigns a navigation target
(`window.location.href`). -/
def rendersRedirect (sk : Bool) (st : ProviderState) : Bool :=
  (Dashboard st.session st.loading sk).redirect.isSome

/-- The number of renders along an execution in which the guard assigns the
login path to the location. -/
def redirectRenderCount (sk : Bool) (sts : List ProviderState) : Nat :=
  List.countP (rendersRedirect sk) (renderStates sts)

/-- A redirect-pending render does assign a navigation target. -/
theorem rendersRedirect_pending (sk : Bool) :
    rendersRedirect sk redirectPendingState = true := rfl

/-- Re-deliveries of an unchanged state cause no re-render at all. -/
theorem rendersFrom_replicate (prev : ProviderState) (n : Nat) :
    rendersFrom prev (List.replicate n prev) = [] := by
  induction n with
  | zero => rfl
  | succ m ih => simp [List.replicate_succ, rendersFrom, ih]

/-- Helper for C5: once the last rendered state is redirect-free, an execution
suffix of redirect-free states followed by an arbitrarily repeated
redirect-pending state produces exactly one redirecting render. -/
theorem countP_rendersFrom_once (sk : Bool) (pre : List ProviderState)
    (prev : ProviderState) (n : Nat)
    (hpre : ∀ st ∈ pre, rendersRedirect sk st = false)
    (hprev : rendersRedirect sk prev = false) :
    List.countP (rendersRedirect sk)
      (rendersFrom prev
        (pre ++ List.replicate (n + 1) redirectPendingState)) = 1 := by
  induction pre generalizing prev with
  | nil =>
    have hne : redirectPendingState ≠ prev := by
      intro hcontra
      rw [← hcontra, rendersRedirect_pending] at hprev
      exact Bool.noConfusion hprev
    simp only [List.nil_append, List.replicate_succ, rendersFrom, if_neg hne,
      rendersFrom_replicate]
    simp [List.countP_cons, rendersRedirect_pending]
  | cons p pre' ih =>
    have hp : rendersRedirect sk p = false := hpre p (List.mem_cons_self p pre')
    have hpre' : ∀ st ∈ pre', rendersRedirect sk st = false := fun st hst =>
      hpre st (List.mem_cons_of_mem p hst)
    by_cases hpp : p = prev
    · simp only [List.cons_append, rendersFrom, if_pos hpp]
      exact ih prev hpre' hprev
    · simp only [List.cons_append, rendersFrom, if_neg hpp]
      rw [List.countP_cons_of_neg]
      · exact ih p hpre' hp
      · simp [hp]

/-- C5: over a whole execution in which the guarded view renders some
redirect-free states, then reaches the redirect-pending state (loading
resolved, no session) and re-renders arbitrarily often in that state, the
guard assigns the login path exactly once — and the only navigation target the
guard can ever assign is `/auth/login` (no redirect loop). -/
theorem redirect_issued_exactly_once (sk : Bool) (pre : List ProviderState)
    (n : Nat)
    (hpre : ∀ st ∈ pre, (Dashboard st.session st.loading sk).redirect = none) :
    redirectRenderCount sk
        (pre ++ List.replicate (n + 1) redirectPendingState) = 1 ∧
    ∀ st : ProviderState,
      (Dashboard st.session st.loading sk).redirect = none ∨
      (Dashboard st.session st.loading sk).redirect = some "/auth/login" := by
  constructor
  · have hpre' : ∀ st ∈ pre, rendersRedirect sk st = false := by
      intro st hst
      simp [rendersRedirect, hpre st hst]
    cases pre with
    | nil =>
      simp only [List.nil_append, List.replicate_succ, redirectRenderCount,
        renderStates, rendersFrom_replicate]
      simp [List.countP_cons, rendersRedirect_pending]
    | cons p pre' =>
      have hp : rendersRedirect sk p = false :=
        hpre' p (List.mem_cons_self p pre')
      have hrest : ∀ st ∈ pre', rendersRedirect sk st = false := fun st hst =>
        hpre' st (List.mem_cons_of_mem p hst)
      simp only [List.cons_append, redirectRenderCount, renderStates]
      rw [List.countP_cons_of_neg]
      · exact countP_rendersFrom_once sk pre' p n hrest hp
      · simp [hp]
  · intro st
    rcases st with ⟨s, l⟩
    cases l
    · cases s
      · exact Or.inr rfl
      · exact Or.inl rfl
    · exact Or.inl rfl

/-- Witness for C5: an execution that renders the loading state once and then
the redirect-pending state three times issues exactly one redirect. -/
theorem redirect_issued_exactly_once_witness :
    redirectRenderCount false
        ([{ session := none, loading := true }] ++
          List.replicate 3 redirectPendingState) = 1 :=
  (redirect_issued_exactly_once false [{ session := none, loading := true }] 2
    (by intro st hst; simp at hst; subst hst; rfl)).1

/-- C6: a guarded view mounted in the redirect-pending state (it rendered
nothing and assigned the login path) transitions, when the identity service
pushes a new session, to rendering the protected content: the same render
function applied to the pushed state, with the component's local state `sk`
preserved (no remount), yields the protected content and no redirect. -/
theorem push_after_no_session_renders_content (u : User) (sk : Bool) :
    Dashboard redirectPendingState.session redirectPendingState.loading sk =
      { view := View.nothing, redirect := some "/auth/login" } ∧
    providerStep redirectPendingState (ProviderEvent.authChange (some u)) =
      { session := some u, loading := false } ∧
    Dashboard
        (providerStep redirectPendingState
          (ProviderEvent.authChange (some u))).session
        (providerStep redirectPendingState
          (ProviderEvent.authChange (some u))).loading
        sk =
      { view := View.protectedContent u sk, redirect := none } :=
  ⟨rfl, rfl, rfl⟩

/-- A request the provider can issue to the identity service. -/
inductive IdentityRequest where
  | getSessionRequest
  | signOutRequest
deriving DecidableEq

/-- The application state visible to the provider and its callers: the
provider's exposed state, the window's assigned navigation target (none while
no navigation has been assigned), whether the page has been reloaded, and the
requests issued to the identity service so far. -/
structure AppState where
  provider : ProviderState
  nav : Option String
  reloaded : Bool
  requests : List IdentityRequest
deriving DecidableEq

/-- Modelled from the spec: the provider's sign-out operation
(`src/lib/auth-context.tsx` is not among the provided sources).  Per the
specification it requests session termination from the identity service and
does nothing else: no navigation, no reload, and no session mutation of its
own — the change listener's subsequent push performs that. -/
def signOut (app : AppState) : AppState :=
  { app with requests := app.requests ++ [IdentityRequest.signOutRequest] }

/-- Delivery of one identity-service event to the running application: the
provider consumes it; nothing else in the application state changes. -/
def deliver (app : AppState) (e : ProviderEvent) : AppState :=
  { app with provider := providerStep app.provider e }

/-- The navigation bar's local state: whether the mobile menu is open. -/
structure NavLocalState where
  mobileMenuOpen : Bool
deriving DecidableEq

/-- Translation of the desktop Sign Out button's click handler in `Nav`
(`src/components/nav.tsx`, desktop area): it calls the provider's sign-out
operation and nothing else. -/
def navDesktopSignOutClick (app : AppState) (loc : NavLocalState) :
    AppState × NavLocalState :=
  (signOut app, loc)

/-- Translation of the mobile Sign Out button's click handler in `Nav`: it
calls the provider's sign-out operation and closes the mobile menu. -/
def navMobileSignOutClick (app : AppState) (loc : NavLocalState) :
    AppState × NavLocalState :=
  (signOut app, { loc with mobileMenuOpen := false })

/-- C7: the sign-out operation issues exactly the session-termination request
and leaves navigation, reload status and the provider's state unchanged; the
navigation-bar click handlers only invoke it (plus closing the mobile menu);
and once the identity service confirms termination by pushing the no-session
event, the exposed session becomes absent with navigation and reload status
still unchanged. -/
theorem signOut_requests_and_no_navigation (app : AppState)
    (loc : NavLocalState) :
    (signOut app).requests = app.requests ++ [IdentityRequest.signOutRequest] ∧
    (signOut app).nav = app.nav ∧
    (signOut app).reloaded = app.reloaded ∧
    (signOut app).provider = app.provider ∧
    navDesktopSignOutClick app loc = (signOut app, loc) ∧
    (navMobileSignOutClick app loc).1 = signOut app ∧
    (deliver (signOut app) (ProviderEvent.authChange none)).provider.session =
      none ∧
    (deliver (signOut app) (ProviderEvent.authChange none)).nav = app.nav ∧
    (deliver (signOut app) (ProviderEvent.authChange none)).reloaded =
      app.reloaded :=
  ⟨rfl, rfl, rfl, rfl, rfl, rfl, rfl, rfl, rfl⟩

/-- A thrown rendering-time exception, as caught by the error boundary: the
source only reads its `message` field. -/
structure Error where
  message : String
deriving DecidableEq

/-- The `ErrorBoundary` component's state (`src/components/error-boundary.tsx`):
`hasError` and the optionally recorded error. -/
structure EBState where
  hasError : Bool
  error : Option Error
deriving DecidableEq

/-- The constructor's initial state: `hasError` false, no recorded error. -/
def ErrorBoundary.initialState : EBState := { hasError := false, error := none }

/-- Translation of `static getDerivedStateFromError(error)`: record the error
and set `hasError`. -/
def ErrorBoundary.getDerivedStateFromError (e : Error) : EBState :=
  { hasError := true, error := some e }

/-- Translation of the retry button's click handler: reset the state to
`hasError` false and no recorded error. -/
def ErrorBoundary.retry (_st : EBState) : EBState :=
  { hasError := false, error := none }

/-- Translation of the failure screen's message expression: the recorded
error's message, or the fixed fallback text when the message is absent or
empty (JavaScript's or-else on a falsy string). -/
def ErrorBoundary.displayedMessage : Option Error → String
  | some e => if e.message = "" then "An unexpected error occurred" else e.message
  | none => "An unexpected error occurred"

/-- What the error boundary can put on screen: nothing at all (a blank page,
if an exception escapes uncaught), the generic failure screen with its retry
and go-home actions, or the wrapped children. -/
inductive EBRendered (α : Type) where
  | blank
  | failureScreen (message : String) (hasRetryAction : Bool)
      (hasGoHomeAction : Bool)
  | children (c : α)
deriving DecidableEq

/-- Translation of the `render` method: in the error state it renders the
failure screen (message as above, a Try-again button wired to the
state reset, and a Go-home button); otherwise it renders the wrapped
children, whose own rendering may throw. -/
def ErrorBoundary.render (st : EBState) (children : Except Error α) :
    Except Error (EBRendered α) :=
  if st.hasError then
    Except.ok
      (EBRendered.failureScreen (ErrorBoundary.displayedMessage st.error)
        true true)
  else
    children.map EBRendered.children

/-- React's error-boundary runtime semantics: the boundary mounts in its
initial state and renders; if rendering the children throws, the framework
calls `getDerivedStateFromError` and renders the boundary again in the derived
state; an exception escaping that too would leave a blank page. -/
def boundaryMountRender (children : Except Error α) : EBRendered α :=
  match ErrorBoundary.render ErrorBoundary.initialState children with
  | Except.ok v => v
  | Except.error e =>
      match
        ErrorBoundary.render (ErrorBoundary.getDerivedStateFromError e)
          children with
      | Except.ok v => v
      | Except.error _ => EBRendered.blank

/-- Translation of `RootComponent` (`src/routes/__root.tsx`): the entire
component tree below the root renders inside the top-level `ErrorBoundary`. -/
def RootComponent (tree : Except Error α) : EBRendered α :=
  boundaryMountRender tree

/-- C8: whenever rendering the component tree below the root throws, the
top-level boundary catches the exception and renders the generic failure
screen, which carries a retry action — never the blank page. -/
theorem error_boundary_catches (α : Type) (e : Error) :
    RootComponent (Except.error e : Except Error α) =
      EBRendered.failureScreen (ErrorBoundary.displayedMessage (some e))
        true true ∧
    RootComponent (Except.error e : Except Error α) ≠ EBRendered.blank := by
  refine ⟨rfl, ?_⟩
  intro hcontra
  exact EBRendered.noConfusion
    ((rfl :
      RootComponent (Except.error e : Except Error α) =
        EBRendered.failureScreen (ErrorBoundary.displayedMessage (some e))
          true true).symm.trans hcontra)

/-- C9: in the error state the displayed message is the caught error's message
when that is nonempty and the fixed fallback text otherwise, and the retry
action resets the state so that the wrapped children render again. -/
theorem error_boundary_message_and_retry (e : Error) (α : Type) (v : α)
    (st : EBState) :
    (e.message ≠ "" → ErrorBoundary.displayedMessage (some e) = e.message) ∧
    (e.message = "" →
      ErrorBoundary.displayedMessage (some e) = "An unexpected error occurred") ∧
    ErrorBoundary.retry st = { hasError := false, error := none } ∧
    ErrorBoundary.render (ErrorBoundary.retry st) (Except.ok v) =
      Except.ok (EBRendered.children v) := by
  refine ⟨fun h => ?_, fun h => ?_, rfl, rfl⟩
  · simp [ErrorBoundary.displayedMessage, h]
  · simp [ErrorBoundary.displayedMessage, h]

/-- Witness for C9: a caught error whose message is the nonempty string
"boom" is displayed verbatim. -/
theorem error_boundary_message_and_retry_witness :
    ErrorBoundary.displayedMessage (some { message := "boom" }) = "boom" :=
  (error_boundary_message_and_retry { message := "boom" } Unit ()
    ErrorBoundary.initialState).1 (by decide)

/-- Witness for C8: a thrown error with message "boom" yields the failure
screen with a retry action. -/
theorem error_boundary_catches_witness :
    RootComponent (Except.error { message := "boom" } : Except Error Unit) =
      EBRendered.failureScreen
        (ErrorBoundary.displayedMessage (some { message := "boom" }))
        true true :=
  (error_boundary_catches Unit { message := "boom" }).1

/-- The interactive items of the navigation bar that depend on the auth
state. -/
inductive NavItem where
  | dashboardLink
  | signOutButton
  | loginLink
  | signupLink
deriving DecidableEq

/-- Translation of the desktop navigation area of `Nav`
(`src/components/nav.tsx`): with a user present it renders the Dashboard link
and the Sign Out button, otherwise the Login and Sign Up links. -/
def desktopNavItems (user : Option User) : List NavItem :=
  match user with
  | some _ => [NavItem.dashboardLink, NavItem.signOutButton]
  | none => [NavItem.loginLink, NavItem.signupLink]

/-- Translation of the mobile navigation area of `Nav`: rendered only while
the mobile menu is open, with the same two groups as the desktop area. -/
def mobileNavItems (user : Option User) (mobileMenuOpen : Bool) :
    List NavItem :=
  if mobileMenuOpen then
    match user with
    | some _ => [NavItem.dashboardLink, NavItem.signOutButton]
    | none => [NavItem.loginLink, NavItem.signupLink]
  else []

/-- C10: in both the desktop and the (open) mobile navigation, the Dashboard
link and Sign Out button appear iff a user is present, the Login and Sign Up
links appear iff no user is present, and the two groups never appear
together. -/
theorem nav_items_iff_user (user : Option User) :
    (NavItem.dashboardLink ∈ desktopNavItems user ↔ user.isSome = true) ∧
    (NavItem.signOutButton ∈ desktopNavItems user ↔ user.isSome = true) ∧
    (NavItem.loginLink ∈ desktopNavItems user ↔ user = none) ∧
    (NavItem.signupLink ∈ desktopNavItems user ↔ user = none) ∧
    (NavItem.dashboardLink ∈ mobileNavItems user true ↔ user.isSome = true) ∧
    (NavItem.signOutButton ∈ mobileNavItems user true ↔ user.isSome = true) ∧
    (NavItem.loginLink ∈ mobileNavItems user true ↔ user = none) ∧
    (NavItem.signupLink ∈ mobileNavItems user true ↔ user = none) ∧
    ¬(NavItem.dashboardLink ∈ desktopNavItems user ∧
      NavItem.loginLink ∈ desktopNavItems user) ∧
    ¬(NavItem.dashboardLink ∈ mobileNavItems user true ∧
      NavItem.loginLink ∈ mobileNavItems user true) := by
  cases user <;> simp [desktopNavItems, mobileNavItems]

/-- Witness for C10: with a user signed in, the desktop navigation shows the
Dashboard link. -/
theorem nav_items_iff_user_witness :
    NavItem.dashboardLink ∈
      desktopNavItems (some { id := "1", email := "a@b.c" }) :=
  (nav_items_iff_user (some { id := "1", email := "a@b.c" })).1.mpr rfl

end Frummy
